import Mathlib

/-!
Verification development for the deprecation-detection module of this
urllib3 fork.  The Python source (src/urllib3/deprecation.py, slack.py,
jira.py) is shallowly embedded: JSON mappings become association lists,
Python dicts with a fixed shape become structures, `None`-able values
become `Option`, raised `KeyError`s become `Except.error`, and functions
whose effect is confined to a local JSON history file become pure state
transformers on the file contents (`Option (List _)`, `none` = file
absent).  Remote HTTP responses are passed in as explicit arguments.
-/

/-- A value of a Python dict with string keys, as an association list;
lookup returns the first binding (keys of a parsed JSON object are
unique). -/
def dictFind (d : List (String × α)) (k : String) : Option α :=
  match d with
  | [] => none
  | (k2, v) :: rest => if k2 = k then some v else dictFind rest k

/-- One entry of an operation's `parameters` array in an OpenAPI
document: the `name` and `in` keys are always present, the `deprecated`
key may be absent. -/
structure ParameterObject where
  name : String
  «in» : String
  deprecated : Option Bool
deriving DecidableEq, Repr

/-- An operation object of an OpenAPI document: an optional boolean
`deprecated` key and an optional `parameters` array. -/
structure OperationObject where
  deprecated : Option Bool
  parameters : Option (List ParameterObject)
deriving DecidableEq, Repr

/-- An OpenAPI document: the `paths` mapping, keyed by path string,
each value a mapping keyed by (lowercase) HTTP method. -/
structure OpenAPI where
  paths : List (String × List (String × OperationObject))
deriving DecidableEq, Repr

/-- The `KeyError`s raised by the detection functions (the spec's
`NotFoundError` taxonomy): path absent, method absent under the path,
or `parameters` key absent on the operation. -/
inductive NotFoundError where
  | pathNotFound (path : String)
  | methodNotFound (path method : String)
  | parametersNotFound (path method : String)
deriving DecidableEq, Repr

/-- Embedding of Python's `str.lower` for the (ASCII) strings this
module lowercases, mapping `Char.toLower` over the characters; defined
by structural means so concrete instances evaluate. -/
def strLower (s : String) : String := ⟨s.data.map Char.toLower⟩

/-- Embedding of Python's `str.upper`, mapping `Char.toUpper` over the
characters. -/
def strUpper (s : String) : String := ⟨s.data.map Char.toUpper⟩

/-- Embedding of `is_operation_deprecated` (deprecation.py, lines
21-44): raises when the path or the lowercased method is absent,
returns `false` when the operation has no `deprecated` key, else the
stored boolean. -/
def is_operation_deprecated (oas : OpenAPI) (path method : String) :
    Except NotFoundError Bool :=
  match dictFind oas.paths path with
  | none => Except.error (NotFoundError.pathNotFound path)
  | some pathItem =>
    match dictFind pathItem (strLower method) with
    | none => Except.error (NotFoundError.methodNotFound path method)
    | some op =>
      match op.deprecated with
      | none => Except.ok false
      | some b => Except.ok b

/-- The accumulation loop of `are_parameter_deprecated` (deprecation.py,
lines 71-74): walk the declared parameters in order, appending the name
of each one whose `deprecated` key is present and true, whose name is
among the requested parameters, and whose `in` location is `"query"`. -/
def deprecatedParamLoop (declared : List ParameterObject)
    (parameter : List String) : List String :=
  declared.foldl
    (fun acc p =>
      if p.deprecated = some true ∧ p.name ∈ parameter ∧ p.«in» = "query"
      then acc ++ [p.name] else acc)
    []

/-- Embedding of `are_parameter_deprecated` (deprecation.py, lines
46-76): same lookups as `is_operation_deprecated`, additionally raising
when the operation has no `parameters` key, then returning the loop's
result paired with its non-emptiness. -/
def are_parameter_deprecated (oas : OpenAPI) (path method : String)
    (parameter : List String) : Except NotFoundError (Bool × List String) :=
  match dictFind oas.paths path with
  | none => Except.error (NotFoundError.pathNotFound path)
  | some pathItem =>
    match dictFind pathItem (strLower method) with
    | none => Except.error (NotFoundError.methodNotFound path method)
    | some op =>
      match op.parameters with
      | none => Except.error (NotFoundError.parametersNotFound path method)
      | some declared =>
        let deprecatedParams := deprecatedParamLoop declared parameter
        Except.ok (!deprecatedParams.isEmpty, deprecatedParams)

/-- The condition of the loop body, as a predicate on a declared
parameter. -/
def isFlaggedParam (parameter : List String) (p : ParameterObject) : Prop :=
  p.deprecated = some true ∧ p.name ∈ parameter ∧ p.«in» = "query"

instance (parameter : List String) (p : ParameterObject) :
    Decidable (isFlaggedParam parameter p) := by
  unfold isFlaggedParam; infer_instance

theorem deprecatedParamLoop_go (declared : List ParameterObject)
    (parameter : List String) (acc : List String) :
    declared.foldl
      (fun acc p =>
        if p.deprecated = some true ∧ p.name ∈ parameter ∧ p.«in» = "query"
        then acc ++ [p.name] else acc)
      acc
    = acc ++ (declared.filter
        (fun p => decide (isFlaggedParam parameter p))).map ParameterObject.name := by
  induction declared generalizing acc with
  | nil => simp
  | cons p rest ih =>
    by_cases h : isFlaggedParam parameter p
    · have hd : decide (isFlaggedParam parameter p) = true := decide_eq_true h
      have h2 := h
      unfold isFlaggedParam at h2
      simp only [List.foldl_cons, List.filter_cons, hd, if_pos h2, ih]
      simp
    · have hd : decide (isFlaggedParam parameter p) = false := decide_eq_false h
      have h2 := h
      unfold isFlaggedParam at h2
      simp only [List.foldl_cons, List.filter_cons, hd, if_neg h2, ih]
      simp

/-- The loop equals declaration-order filtering followed by taking
names. -/
theorem deprecatedParamLoop_eq_filter (declared : List ParameterObject)
    (parameter : List String) :
    deprecatedParamLoop declared parameter
    = (declared.filter
        (fun p => decide (isFlaggedParam parameter p))).map ParameterObject.name := by
  unfold deprecatedParamLoop
  simpa using deprecatedParamLoop_go declared parameter []

/-- Operation object used by the concrete witnesses: deprecated, with
one deprecated query parameter and one deprecated path parameter. -/
def demoUsersGet : OperationObject :=
  { deprecated := some true
    parameters := some
      [ { name := "limit", «in» := "query", deprecated := some true }
      , { name := "id", «in» := "path", deprecated := some true } ] }

/-- Concrete OpenAPI document used by the witnesses. -/
def demoOAS : OpenAPI :=
  { paths := [("/users", [("get", demoUsersGet)])] }

/-- Concrete document whose single operation has an empty `parameters`
array. -/
def demoEmptyParamsOAS : OpenAPI :=
  { paths := [("/u", [("get",
      { deprecated := none, parameters := some [] })])] }

/-- C1: for every document and every (path, method) pair present in it
(the method key being the lowercased method argument, so the argument's
letter case is irrelevant), `is_operation_deprecated` returns exactly
the boolean stored under the operation's `deprecated` key, and `false`
when that key is absent. -/
theorem C1_is_operation_deprecated_returns_stored_flag
    (oas : OpenAPI) (path method : String)
    (pathItem : List (String × OperationObject)) (op : OperationObject)
    (hp : dictFind oas.paths path = some pathItem)
    (hm : dictFind pathItem (strLower method) = some op) :
    is_operation_deprecated oas path method
      = Except.ok (op.deprecated.getD false) := by
  cases hop : op.deprecated <;>
    simp [is_operation_deprecated, hp, hm, hop]

/-- Witness for C1: on the concrete document, the operation stored at
`paths["/users"]["get"]` has `deprecated = true` and the uppercase
method argument is accepted. -/
theorem C1_witness :
    is_operation_deprecated demoOAS "/users" "GET" = Except.ok true := by
  have h := C1_is_operation_deprecated_returns_stored_flag demoOAS "/users" "GET"
    [("get", demoUsersGet)] demoUsersGet (by decide) (by decide)
  simpa [demoUsersGet] using h

/-- C2: for every operation present in the document that carries a
`parameters` array, `are_parameter_deprecated` returns the pair
`(b, l)` where `l` lists, in declaration order, the names of exactly
the declared parameters that are marked deprecated, requested, and
located in `"query"`, and `b` is true iff `l` is non-empty; every name
in `l` is requested and stems from a declared deprecated query
parameter. -/
theorem C2_are_parameter_deprecated_filtered_subset
    (oas : OpenAPI) (path method : String) (parameter : List String)
    (pathItem : List (String × OperationObject)) (op : OperationObject)
    (declared : List ParameterObject)
    (hp : dictFind oas.paths path = some pathItem)
    (hm : dictFind pathItem (strLower method) = some op)
    (hps : op.parameters = some declared) :
    (are_parameter_deprecated oas path method parameter
      = Except.ok
          (!((declared.filter (fun p => decide (isFlaggedParam parameter p))).map
              ParameterObject.name).isEmpty,
           (declared.filter (fun p => decide (isFlaggedParam parameter p))).map
              ParameterObject.name))
    ∧ (∀ n ∈ (declared.filter (fun p => decide (isFlaggedParam parameter p))).map
          ParameterObject.name,
        n ∈ parameter ∧ ∃ p ∈ declared,
          p.name = n ∧ p.deprecated = some true ∧ p.«in» = "query") := by
  constructor
  · simp only [are_parameter_deprecated, hp, hm, hps,
      deprecatedParamLoop_eq_filter]
  · intro n hn
    rcases List.mem_map.mp hn with ⟨p, hpmem, hpname⟩
    rcases List.mem_filter.mp hpmem with ⟨hpdecl, hpflag⟩
    have hflag : isFlaggedParam parameter p := of_decide_eq_true hpflag
    rcases hflag with ⟨h1, h2, h3⟩
    exact ⟨hpname ▸ h2, p, hpdecl, hpname, h1, h3⟩

/-- Witness for C2: requesting `["limit", "id"]` on the concrete
document flags only the query parameter `limit`; the deprecated path
parameter `id` is excluded. -/
theorem C2_witness :
    are_parameter_deprecated demoOAS "/users" "GET" ["limit", "id"]
      = Except.ok (true, ["limit"]) := by
  have h := (C2_are_parameter_deprecated_filtered_subset demoOAS "/users" "GET"
    ["limit", "id"] [("get", demoUsersGet)] demoUsersGet
    ((demoUsersGet).parameters.getD []) (by decide) (by decide) (by decide)).1
  exact h.trans (congrArg Except.ok (by decide))

/-- C3: both detection functions fail exactly when the path is absent
or the lowercased method is absent under the path;
`are_parameter_deprecated` additionally fails exactly when the
operation has no `parameters` key, while an operation whose
`parameters` value is the empty array yields `(false, [])`. -/
theorem C3_notfound_exactly_on_missing_keys
    (oas : OpenAPI) (path method : String) (parameter : List String) :
    ((∃ e, is_operation_deprecated oas path method = Except.error e) ↔
      (dictFind oas.paths path = none ∨
       ∃ pathItem, dictFind oas.paths path = some pathItem ∧
         dictFind pathItem (strLower method) = none))
    ∧ ((∃ e, are_parameter_deprecated oas path method parameter = Except.error e) ↔
      (dictFind oas.paths path = none ∨
       (∃ pathItem, dictFind oas.paths path = some pathItem ∧
         dictFind pathItem (strLower method) = none) ∨
       (∃ pathItem op, dictFind oas.paths path = some pathItem ∧
         dictFind pathItem (strLower method) = some op ∧ op.parameters = none)))
    ∧ (∀ pathItem op, dictFind oas.paths path = some pathItem →
        dictFind pathItem (strLower method) = some op →
        op.parameters = some [] →
        are_parameter_deprecated oas path method parameter
          = Except.ok (false, [])) := by
  refine ⟨?_, ?_, ?_⟩
  · unfold is_operation_deprecated
    cases hpath : dictFind oas.paths path with
    | none => simp
    | some pathItem =>
      cases hm : dictFind pathItem (strLower method) with
      | none => simp [hm]
      | some op => cases hop : op.deprecated <;> simp [hm, hop]
  · unfold are_parameter_deprecated
    cases hpath : dictFind oas.paths path with
    | none => simp
    | some pathItem =>
      cases hm : dictFind pathItem (strLower method) with
      | none => simp [hm]
      | some op =>
        cases hps : op.parameters with
        | none => simp [hm, hps]
        | some declared => simp [hm, hps]
  · intro pathItem op h1 h2 h3
    simp [are_parameter_deprecated, h1, h2, h3, deprecatedParamLoop]

/-- Witness for C3: a missing path raises, and an operation with an
empty `parameters` array yields `(false, [])` rather than raising. -/
theorem C3_witness :
    (∃ e, is_operation_deprecated demoOAS "/missing" "GET" = Except.error e)
    ∧ are_parameter_deprecated demoEmptyParamsOAS "/u" "get" ["limit"]
        = Except.ok (false, []) := by
  constructor
  · exact (C3_notfound_exactly_on_missing_keys demoOAS "/missing" "GET" []).1.mpr
      (Or.inl (by decide))
  · exact (C3_notfound_exactly_on_missing_keys demoEmptyParamsOAS "/u" "get"
      ["limit"]).2.2 [("get", { deprecated := none, parameters := some [] })]
      { deprecated := none, parameters := some [] } (by decide) (by decide)
      (by decide)

/-- A `datetime.datetime` value as the Slack/log embedding needs it:
only the string its `isoformat()` produces is kept (a datetime object
is always truthy in Python, so `Option Datetime` models the
`None`-able arguments). -/
structure Datetime where
  iso : String
deriving DecidableEq, Repr

/-- One record of the Slack history file (the `new_message` dict of
slack.py): url, http-method, deprecated-parameter (null or a sorted
list), deprecation-header and sunset-header (null or an isoformat
string). -/
structure SlackMessage where
  url : String
  http_method : String
  deprecated_parameter : Option (List String)
  deprecation_header : Option String
  sunset_header : Option String
deriving DecidableEq, Repr

/-- Code-point lexicographic order on character lists, the order
Python's `sorted` uses on strings. -/
def charListLe : List Char → List Char → Bool
  | [], _ => true
  | _ :: _, [] => false
  | a :: as, b :: bs =>
    if a.toNat < b.toNat then true
    else if b.toNat < a.toNat then false
    else charListLe as bs

/-- Code-point lexicographic order on strings. -/
def strLe (a b : String) : Bool := charListLe a.data b.data

/-- Insert a string into an ascending list, keeping it ascending. -/
def insertSorted (s : String) : List String → List String
  | [] => [s]
  | t :: ts => if strLe s t then s :: t :: ts else t :: insertSorted s ts

/-- Embedding of Python's `sorted` on a list of strings: ascending
insertion sort. -/
def sortedStrings : List String → List String
  | [] => []
  | s :: ss => insertSorted s (sortedStrings ss)

/-- The `new_message` dict built identically in
`send_deprecation_webhook_slack` (slack.py, lines 109-115) and
`check_if_already_send` (lines 139-145): the parameter list is sorted
when truthy and becomes null when empty or absent (`sorted(p) if p
else None`), each timestamp becomes its isoformat or null. -/
def new_slack_message (deprecation_url http_method : String)
    (deprecated_parameter : Option (List String))
    (deprecation_datetime sunset_datetime : Option Datetime) : SlackMessage :=
  { url := deprecation_url
    http_method := http_method
    deprecated_parameter :=
      match deprecated_parameter with
      | none => none
      | some l => if l.isEmpty then none else some (sortedStrings l)
    deprecation_header := deprecation_datetime.map Datetime.iso
    sunset_header := sunset_datetime.map Datetime.iso }

/-- Embedding of the history-file effect of
`send_deprecation_webhook_slack` (slack.py, lines 101-122): read the
old messages (a missing file reads as empty history), append the new
message, write the whole list back; the result is the new file
contents.  The webhook POST leaves no local state and is not
modelled. -/
def send_deprecation_webhook_slack (file : Option (List SlackMessage))
    (deprecation_url http_method : String)
    (deprecated_parameter : Option (List String))
    (deprecation_datetime sunset_datetime : Option Datetime) :
    List SlackMessage :=
  let old_messages := match file with | none => [] | some msgs => msgs
  old_messages ++ [new_slack_message deprecation_url http_method
    deprecated_parameter deprecation_datetime sunset_datetime]

/-- Embedding of `check_if_already_send` (slack.py, lines 124-159):
false when the history file is absent, else whether some stored
message equals the canonical message for the given arguments. -/
def check_if_already_send (file : Option (List SlackMessage))
    (deprecation_url http_method : String)
    (deprecated_parameter : Option (List String))
    (deprecation_datetime sunset_datetime : Option Datetime) : Bool :=
  match file with
  | none => false
  | some old_messages =>
    old_messages.any (fun message =>
      new_slack_message deprecation_url http_method deprecated_parameter
        deprecation_datetime sunset_datetime == message)

/-- The Slack sink's emit-then-record sequence as spec section 4.5
describes the caller: send (which also records) only when the dedup
check says the event was not sent yet; the result is the new
history-file state. -/
def slack_emit_then_record (file : Option (List SlackMessage))
    (deprecation_url http_method : String)
    (deprecated_parameter : Option (List String))
    (deprecation_datetime sunset_datetime : Option Datetime) :
    Option (List SlackMessage) :=
  if check_if_already_send file deprecation_url http_method
      deprecated_parameter deprecation_datetime sunset_datetime
  then file
  else some (send_deprecation_webhook_slack file deprecation_url http_method
    deprecated_parameter deprecation_datetime sunset_datetime)

/-- Number of entries the history file holds (zero when absent). -/
def historySize (file : Option (List SlackMessage)) : Nat :=
  (match file with | none => [] | some msgs => msgs).length

/-- After a send, a check whose canonical message coincides with the
sent one succeeds. -/
theorem check_after_send (file : Option (List SlackMessage))
    (url method : String) (dp dp2 : Option (List String))
    (dd sd : Option Datetime)
    (h : new_slack_message url method dp2 dd sd
       = new_slack_message url method dp dd sd) :
    check_if_already_send
      (some (send_deprecation_webhook_slack file url method dp dd sd))
      url method dp2 dd sd = true := by
  unfold check_if_already_send send_deprecation_webhook_slack
  rw [List.any_eq_true]
  refine ⟨new_slack_message url method dp dd sd, by simp, ?_⟩
  rw [h]
  exact beq_self_eq_true _

/-- C4: Slack dedup identity is order-independent on parameters and
treats an empty parameter list as equal to an absent one: for every
url, method, timestamps and prior history, a record sent with
parameters `["a", "b"]` matches a check with `["b", "a"]`, one sent
with `[]` matches a check with parameters absent, and one sent with
parameters absent matches a check with `[]`. -/
theorem C4_slack_dedup_param_order_and_empty_absent
    (file : Option (List SlackMessage)) (url method : String)
    (dd sd : Option Datetime) :
    (check_if_already_send
        (some (send_deprecation_webhook_slack file url method
          (some ["a", "b"]) dd sd)) url method (some ["b", "a"]) dd sd = true)
    ∧ (check_if_already_send
        (some (send_deprecation_webhook_slack file url method
          (some []) dd sd)) url method none dd sd = true)
    ∧ (check_if_already_send
        (some (send_deprecation_webhook_slack file url method
          none dd sd)) url method (some []) dd sd = true) := by
  refine ⟨?_, ?_, ?_⟩ <;>
    [ exact check_after_send file url method (some ["a", "b"])
        (some ["b", "a"]) dd sd (by
          simp [new_slack_message,
            show sortedStrings ["b", "a"] = sortedStrings ["a", "b"]
              from by decide]);
      exact check_after_send file url method (some []) none dd sd
        (by simp [new_slack_message]);
      exact check_after_send file url method none (some []) dd sd
        (by simp [new_slack_message]) ]

/-- C5 as written fails on the code: the stored `http-method` is the
verbatim argument and dedup compares it with string equality, so after
a send with method `"GET"` a check with `"get"` and identical other
fields does not match. -/
theorem C5_counterexample :
    check_if_already_send
      (some (send_deprecation_webhook_slack none "/users" "GET"
        none none none))
      "/users" "get" none none none = false := by decide

/-- C5 amended: the HTTP method of a Slack Notification Record is
compared verbatim (case-sensitively): starting from a missing history
file, after a send with http_method `"GET"`, a check with `"get"` and
all other fields identical returns false, while a check with `"GET"`
returns true. -/
theorem C5_amended_method_compared_verbatim
    (url : String) (dp : Option (List String)) (dd sd : Option Datetime) :
    (check_if_already_send
        (some (send_deprecation_webhook_slack none url "GET" dp dd sd))
        url "get" dp dd sd = false)
    ∧ (check_if_already_send
        (some (send_deprecation_webhook_slack none url "GET" dp dd sd))
        url "GET" dp dd sd = true) := by
  constructor
  · unfold check_if_already_send send_deprecation_webhook_slack
    simp only [List.nil_append, List.any_cons, List.any_nil, Bool.or_false]
    rw [beq_eq_false_iff_ne]
    intro h
    have hmeth := congrArg SlackMessage.http_method h
    simp only [new_slack_message] at hmeth
    exact absurd hmeth (by decide)
  · exact check_after_send none url "GET" dp dp dd sd rfl

/-- C6: a missing Slack history file means the check returns false for
every event, and after one send of an event the check with the
identical event returns true. -/
theorem C6_missing_file_empty_history
    (url method : String) (dp : Option (List String))
    (dd sd : Option Datetime) :
    (check_if_already_send none url method dp dd sd = false)
    ∧ (check_if_already_send
        (some (send_deprecation_webhook_slack none url method dp dd sd))
        url method dp dd sd = true) := by
  exact ⟨rfl, check_after_send none url method dp dp dd sd rfl⟩

/-- C7: starting from a history that does not yet record the event,
running the emit-then-record sequence twice with the identical event
makes the check inside the second run return true, the second run
leaves the history unchanged, and across both runs the history grows
by exactly one entry. -/
theorem C7_emit_then_record_idempotent
    (file : Option (List SlackMessage)) (url method : String)
    (dp : Option (List String)) (dd sd : Option Datetime)
    (h : check_if_already_send file url method dp dd sd = false) :
    (check_if_already_send (slack_emit_then_record file url method dp dd sd)
        url method dp dd sd = true)
    ∧ (slack_emit_then_record
        (slack_emit_then_record file url method dp dd sd)
        url method dp dd sd
      = slack_emit_then_record file url method dp dd sd)
    ∧ (historySize (slack_emit_then_record
          (slack_emit_then_record file url method dp dd sd)
          url method dp dd sd)
      = historySize file + 1) := by
  have hf1 : slack_emit_then_record file url method dp dd sd
      = some (send_deprecation_webhook_slack file url method dp dd sd) := by
    unfold slack_emit_then_record
    rw [h]
    simp
  have hchk : check_if_already_send
      (some (send_deprecation_webhook_slack file url method dp dd sd))
      url method dp dd sd = true :=
    check_after_send file url method dp dp dd sd rfl
  have h2 : slack_emit_then_record
      (some (send_deprecation_webhook_slack file url method dp dd sd))
      url method dp dd sd
      = some (send_deprecation_webhook_slack file url method dp dd sd) := by
    unfold slack_emit_then_record
    rw [hchk]
    simp
  refine ⟨?_, ?_, ?_⟩
  · rw [hf1]
    exact hchk
  · rw [hf1]
    exact h2
  · rw [hf1, h2]
    cases file <;> simp [historySize, send_deprecation_webhook_slack]

/-- Witness for C7 at a concrete event starting from a missing history
file: the second run's check is true and the final history holds one
entry. -/
theorem C7_witness :
    (check_if_already_send
        (slack_emit_then_record none "/users" "GET" none none none)
        "/users" "GET" none none none = true)
    ∧ (historySize (slack_emit_then_record
          (slack_emit_then_record none "/users" "GET" none none none)
          "/users" "GET" none none none) = 1) := by
  have h := C7_emit_then_record_idempotent none "/users" "GET" none none none
    rfl
  exact ⟨h.1, h.2.2⟩

/-- Embedding of the `JIRA_Configuration` dataclass (jira.py, lines
6-25). -/
structure JIRA_Configuration where
  API_URL : String
  API_TOKEN : String
  USER_EMAIL : String
  DEPRECATION_ISSUE_TYPE_KEY : String
  DEPRECATION_ISSUE_TYPE_ID : String
  PROJECT_KEY : String
  PROJECT_ID : String
  DEPRECATION_URL_FIELD : String
  DEPRECATION_URL_FIELD_NAME : String
  DEPRECATION_HTTP_FIELD : String
  DEPRECATION_HTTP_FIELD_NAME : String
  SUNSET_HTTP_FIELD : String
  SUNSET_HTTP_FIELD_NAME : String
  HTTP_METHOD_FIELD : String
  HTTP_METHOD_FIELD_NAME : String
  DEPRECATED_PARAMETER_FIELD : String
  DEPRECATED_PARAMETER_FIELD_NAME : String
  BASE64_AUTH : Option String := none
deriving DecidableEq, Repr

/-- One conjunct of the JQL filter `check_if_issue_exists` builds
(jira.py, lines 64-79); the `AND`-joined query string is embedded as a
list of structured clauses carrying the same data in the same order. -/
inductive JQLClause where
  | typeEq (issueType : String)
  | projectEq (projectKey : String)
  | urlFieldEq (fieldName url : String)
  | methodContains (fieldName method : String)
  | statusNotDone
  | timestampPoint (fieldName minuteValue : String)
  | paramFieldEmpty (fieldName : String)
deriving DecidableEq, Repr

/-- The JQL filter of `check_if_issue_exists` (jira.py, lines 64-79).
`serverMinute` abstracts `astimezone` to the remote server's timezone
followed by `strftime` to minute precision (it depends on the remote
serverInfo response); the two inclusive bounds of a timestamp share
one value, so the single-point range is one clause. -/
def jira_search_clauses (config : JIRA_Configuration)
    (serverMinute : Datetime → String)
    (deprecation_url http_method : String)
    (deprecated_parameter : Option (List String))
    (deprecation_datetime sunset_datetime : Option Datetime) :
    List JQLClause :=
  [ JQLClause.typeEq config.DEPRECATION_ISSUE_TYPE_KEY
  , JQLClause.projectEq config.PROJECT_KEY
  , JQLClause.urlFieldEq (strLower config.DEPRECATION_URL_FIELD_NAME)
      deprecation_url
  , JQLClause.methodContains (strLower config.HTTP_METHOD_FIELD_NAME)
      (strUpper http_method)
  , JQLClause.statusNotDone ]
  ++ (match deprecation_datetime with
      | some d => [JQLClause.timestampPoint
          (strLower config.DEPRECATION_HTTP_FIELD_NAME) (serverMinute d)]
      | none => [])
  ++ (match sunset_datetime with
      | some d => [JQLClause.timestampPoint
          (strLower config.SUNSET_HTTP_FIELD_NAME) (serverMinute d)]
      | none => [])
  ++ (if deprecated_parameter = none then
        [JQLClause.paramFieldEmpty
          (strLower config.DEPRECATED_PARAMETER_FIELD_NAME)]
      else [])

/-- Whether a clause list contains the restriction to an empty
deprecated-parameter field. -/
def hasParamFieldEmptyClause (clauses : List JQLClause) : Bool :=
  clauses.any fun c =>
    match c with
    | JQLClause.paramFieldEmpty _ => true
    | _ => false

/-- Modelled from the spec's data-model words, for comparison with the
code: an event carries no parameters when its parameter list is absent
or empty (absent-vs-empty treated as equal-to-null). -/
def eventCarriesNoParameters : Option (List String) → Bool
  | none => true
  | some l => l.isEmpty

/-- A Jira issue as `check_if_issue_exists` consumes it from the
search response: its id and its deprecated-parameter field value. -/
structure JiraIssue where
  id : String
  deprecated_parameter_field : List String
deriving DecidableEq, Repr

/-- Python truthiness of a `None`-able list: `None` and `[]` are
falsy. -/
def pyListTruthy : Option (List String) → Bool
  | none => false
  | some l => !l.isEmpty

/-- Embedding of the decision part of `check_if_issue_exists` (jira.py,
lines 95-116), with the remote search response passed in as the list
of matching issues: the returned boolean is paired with the list of
`(issue id, parameter)` add-label update requests the merge loop
issues against the first matching issue. -/
def check_if_issue_exists (issues : List JiraIssue)
    (deprecated_parameter : Option (List String)) :
    Bool × List (String × String) :=
  if !pyListTruthy deprecated_parameter || issues.isEmpty then
    (!issues.isEmpty, [])
  else
    match issues with
    | [] => (!issues.isEmpty, [])
    | issue :: _ =>
      ((true : Bool),
        ((deprecated_parameter.getD []).filter
          (fun param => !issue.deprecated_parameter_field.contains param)).map
          (fun param => (issue.id, param)))

/-- Concrete Jira configuration for the counterexample. -/
def demoJiraConfig : JIRA_Configuration :=
  { API_URL := "https://example.atlassian.net/rest/api"
    API_TOKEN := "t"
    USER_EMAIL := "e"
    DEPRECATION_ISSUE_TYPE_KEY := "Deprecation"
    DEPRECATION_ISSUE_TYPE_ID := "1"
    PROJECT_KEY := "DEP"
    PROJECT_ID := "2"
    DEPRECATION_URL_FIELD := "customfield_1"
    DEPRECATION_URL_FIELD_NAME := "DeprecationUrl"
    DEPRECATION_HTTP_FIELD := "customfield_2"
    DEPRECATION_HTTP_FIELD_NAME := "DeprecationDate"
    SUNSET_HTTP_FIELD := "customfield_3"
    SUNSET_HTTP_FIELD_NAME := "SunsetDate"
    HTTP_METHOD_FIELD := "customfield_4"
    HTTP_METHOD_FIELD_NAME := "HttpMethod"
    DEPRECATED_PARAMETER_FIELD := "customfield_5"
    DEPRECATED_PARAMETER_FIELD_NAME := "DeprecatedParameter" }

/-- C8: `check_if_issue_exists` reports existence exactly when the
remote query matched at least one issue — false whenever zero issues
match whatever the parameter list, true whenever some issue matches,
independently of any parameter-add updates the merge loop performs. -/
theorem C8_issue_exists_iff_query_nonempty
    (issues : List JiraIssue) (deprecated_parameter : Option (List String)) :
    (check_if_issue_exists issues deprecated_parameter).1 = true
      ↔ issues ≠ [] := by
  rcases issues with _ | ⟨issue, rest⟩
  · cases hd : pyListTruthy deprecated_parameter <;>
      simp [check_if_issue_exists, hd]
  · cases hd : pyListTruthy deprecated_parameter <;>
      simp [check_if_issue_exists, hd]

/-- C9 as written fails on the code: per the data model an event with
an empty (but present) parameter list carries no parameters, yet the
built filter omits the parameter-field-is-EMPTY clause, because the
code tests `deprecated_parameter == None` literally and `[] != None`. -/
theorem C9_counterexample :
    eventCarriesNoParameters (some []) = true
    ∧ hasParamFieldEmptyClause (jira_search_clauses demoJiraConfig
        Datetime.iso "/users" "GET" (some []) none none) = false := by
  exact ⟨rfl, by decide⟩

/-- C9 amended: the filter includes the empty-parameter-field clause
exactly when the parameter list argument is literally absent (`None`);
an event whose parameter list is present but empty does not receive
the clause. -/
theorem C9_amended_empty_clause_iff_param_none
    (config : JIRA_Configuration) (serverMinute : Datetime → String)
    (url method : String) (dp : Option (List String))
    (dd sd : Option Datetime) :
    hasParamFieldEmptyClause (jira_search_clauses config serverMinute
        url method dp dd sd) = true
      ↔ dp = none := by
  unfold jira_search_clauses hasParamFieldEmptyClause
  cases dp <;> cases dd <;> cases sd <;> simp

/-- The apostrophe Python's `str` of a string list prints around each
element. -/
def pySingleQuote : String := String.singleton (Char.ofNat 39)

/-- Python's `str` of a list of strings, as interpolated by an
f-string. -/
def pyStrOfList (l : List String) : String :=
  "[" ++ String.intercalate ", "
    (l.map (fun s => pySingleQuote ++ s ++ pySingleQuote)) ++ "]"

/-- The Deprecated Parameters portion of the log message
(deprecation.py, line 152): the list rendered by the f-string when
truthy, else the literal token None. -/
def logParamsText (deprecated_parameter : Option (List String)) : String :=
  match deprecated_parameter with
  | none => "None"
  | some l => if l.isEmpty then "None" else pyStrOfList l

/-- Embedding of the `log_message` f-string of `create_log`
(deprecation.py, lines 149-155). -/
def create_log_message (deprecation_url http_method : String)
    (deprecated_parameter : Option (List String))
    (deprecation_datetime sunset_datetime : Option Datetime) : String :=
  "Deprecation Alert: URL=" ++ deprecation_url ++ ", "
  ++ "HTTP Method=" ++ http_method ++ ", "
  ++ "Deprecated Parameters=" ++ logParamsText deprecated_parameter ++ ", "
  ++ "Deprecation Date="
  ++ (match deprecation_datetime with | some d => d.iso | none => "None")
  ++ ", "
  ++ "Sunset Date="
  ++ (match sunset_datetime with | some d => d.iso | none => "None")

/-- C10: with an empty parameter list the Deprecated Parameters
position of the log message holds the literal token None, and the
whole message is identical to the one produced when the parameter list
is absent. -/
theorem C10_empty_params_logged_as_none
    (url method : String) (dd sd : Option Datetime) :
    logParamsText (some []) = "None"
    ∧ create_log_message url method (some []) dd sd
      = create_log_message url method none dd sd := by
  exact ⟨rfl, rfl⟩
